import Mathlib

/-!
# Verification of the BlueZ HID input server (src/input/server.c)

A shallow embedding of the connection-acceptance and two-tier authorization
flow of the HID input server.  Calls into external collaborators (the device
registry, the local authorization service, the D-Bus policy service, glib
channel operations and the socket layer) are recorded as events in a trace;
the outcomes those collaborators return (allocation success, dispatch return
codes, registry return codes) are supplied by an environment oracle, so each
C function becomes a pure Lean function from the oracle and its arguments to
its return value, its registered continuation, and the trace of external
calls it performed.
-/

/-- Bluetooth device addresses (`bdaddr_t`, 6 bytes) are treated as opaque
identifiers; none of the verified properties depend on their byte layout. -/
abbrev bdaddr_t := Nat

/-- Stand-in for `ba2str`: renders an address as the string handed to D-Bus. -/
def ba2str (ba : bdaddr_t) : String := toString ba

/-- `DBUS_ERROR_NO_REPLY`: the D-Bus error name for a timed-out method call. -/
def DBUS_ERROR_NO_REPLY : String := "org.freedesktop.DBus.Error.NoReply"

/-- L2CAP PSM of the HID control channel (`L2CAP_PSM_HIDP_CTRL` = 0x11). -/
def L2CAP_PSM_HIDP_CTRL : Int := 17

/-- L2CAP PSM of the HID interrupt channel (`L2CAP_PSM_HIDP_INTR` = 0x13). -/
def L2CAP_PSM_HIDP_INTR : Int := 19

/-- errno constant `ENOMEM` (out of memory). -/
def ENOMEM : Int := 12

/-- errno constant `EACCES` (permission denied), returned when the fallback
D-Bus call cannot be sent. -/
def EACCES : Int := 13

/-- A D-Bus error as observed by the callbacks: its error name and message. -/
structure DBusError where
  name : String
  message : String
deriving DecidableEq, Repr

/-- `struct authorization_data`: the (source, destination) pair captured for
an in-flight authorization. -/
structure authorization_data where
  src : bdaddr_t
  dst : bdaddr_t
deriving DecidableEq, Repr

/-- Events: one constructor per call the module makes into an external
collaborator (plus the two logging macros, whose messages are irrelevant
to every verified property). -/
inductive Ev where
  /-- `error(...)` log call. -/
  | errorLog : Ev
  /-- `debug(...)` log call. -/
  | debugLog : Ev
  /-- `input_device_connadd(src, dst)`: the registry completes the connection. -/
  | connadd (src dst : bdaddr_t) : Ev
  /-- `input_device_close_channels(src, dst)`. -/
  | closeChannels (src dst : bdaddr_t) : Ev
  /-- `service_cancel_auth(dst)`: primary-tier cancellation. -/
  | serviceCancelAuth (dst : bdaddr_t) : Ev
  /-- the `CancelAuthorizationRequest` D-Bus call was sent for `addr`. -/
  | cancelSend (addr : String) : Ev
  /-- the `RequestAuthorization` D-Bus call was sent for `addr`. -/
  | authRequestSend (addr : String) : Ev
  /-- `service_req_auth(src, dst, HID_UUID, ...)` was invoked. -/
  | reqAuthCall (src dst : bdaddr_t) : Ev
  /-- `input_device_set_channel(src, dst, psm, sk)` was invoked. -/
  | setChannelCall (src dst : bdaddr_t) (psm sk : Int) : Ev
  /-- `write(sk, buf, len)` wrote the byte list `bytes` on descriptor `sk`. -/
  | writeBytes (sk : Int) (bytes : List Nat) : Ev
  /-- `close(sk)`. -/
  | closeFd (sk : Int) : Ev
  /-- `g_io_channel_unref(h)`. -/
  | unref (h : Nat) : Ev
  /-- `g_io_channel_set_close_on_unref(h, TRUE)`; the argument records the
  channel pointer passed, `none` standing for NULL. -/
  | setCloseOnUnref (h : Option Nat) : Ev
deriving DecidableEq, Repr

/-- Number of occurrences of the event `e` in a trace. -/
def countEv (e : Ev) : List Ev → Nat
  | [] => 0
  | x :: xs => (if x = e then 1 else 0) + countEv e xs

/-- Environment oracle: the outcomes returned by the external collaborators
during one connection-acceptance flow. -/
structure Env where
  /-- whether `dbus_message_new_method_call` succeeds in `cancel_authorization`. -/
  cancelMsgAlloc : Bool
  /-- return value of `service_req_auth`. -/
  reqAuthRet : Int
  /-- whether `dbus_message_new_method_call` succeeds in the fallback path. -/
  fallbackMsgAlloc : Bool
  /-- whether `dbus_connection_send_with_reply` returns TRUE in the fallback. -/
  fallbackSendOk : Bool
  /-- return value of `input_device_set_channel`. -/
  setChannelRet : Int
deriving Repr

/-- `cancel_authorization(addr)`: build a `CancelAuthorizationRequest` method
call; on allocation failure log an error and return, otherwise send it
(fire-and-forget). -/
def cancel_authorization (env : Env) (addr : String) : List Ev :=
  if env.cancelMsgAlloc then [Ev.cancelSend addr] else [Ev.errorLog]

/-- `authorization_callback(pcall, data)`: fallback-tier continuation.  The
stolen reply either carries no error (admit the device via
`input_device_connadd`) or carries `derr` (log; on `DBUS_ERROR_NO_REPLY`
cancel the pending remote authorization for the destination address; always
close the channels for the pair). -/
def authorization_callback (env : Env) (auth : authorization_data)
    (replyErr : Option DBusError) : List Ev :=
  match replyErr with
  | none => [Ev.connadd auth.src auth.dst]
  | some derr =>
      Ev.errorLog ::
        ((if derr.name = DBUS_ERROR_NO_REPLY then
            cancel_authorization env (ba2str auth.dst)
          else []) ++ [Ev.closeChannels auth.src auth.dst])

/-- `auth_callback(derr, user_data)`: primary-tier continuation.  `derr = none`
admits the device; otherwise log, on `DBUS_ERROR_NO_REPLY` call
`service_cancel_auth` for the destination, and always close the channels. -/
def auth_callback (auth : authorization_data)
    (derr : Option DBusError) : List Ev :=
  match derr with
  | some d =>
      Ev.errorLog ::
        ((if d.name = DBUS_ERROR_NO_REPLY then [Ev.serviceCancelAuth auth.dst]
          else []) ++ [Ev.closeChannels auth.src auth.dst])
  | none => [Ev.connadd auth.src auth.dst]

/-- The continuation an `authorize_device` call leaves in flight: either the
primary `auth_callback` or the fallback `authorization_callback`, each with
its captured pair. -/
inductive Pending where
  | primary (auth : authorization_data) : Pending
  | fallback (auth : authorization_data) : Pending
deriving DecidableEq, Repr

/-- The `fallback:` label of `authorize_device`: build the
`RequestAuthorization` call (on allocation failure return `-ENOMEM`), send it
with a reply slot (on send failure return `-EACCES` with no continuation
registered), otherwise attach `authorization_callback` to the pending call
and return 0. -/
def fallbackPath (env : Env) (dst : bdaddr_t) (auth : authorization_data) :
    Int × Option Pending × List Ev :=
  if env.fallbackMsgAlloc = false then (-ENOMEM, none, [Ev.errorLog])
  else if env.fallbackSendOk = false then (-EACCES, none, [])
  else (0, some (Pending.fallback auth), [Ev.authRequestSend (ba2str dst)])

/-- `authorize_device(src, dst)`: allocate the `authorization_data` pair, try
`service_req_auth` with `auth_callback` as continuation; a non-negative
return is passed through with the primary continuation in flight, a negative
return falls through to the fallback path. -/
def authorize_device (env : Env) (src dst : bdaddr_t) :
    Int × Option Pending × List Ev :=
  let auth : authorization_data := ⟨src, dst⟩
  let retval := env.reqAuthRet
  if retval < 0 then
    let r := fallbackPath env dst auth
    (r.1, r.2.1, Ev.reqAuthCall src dst :: r.2.2)
  else
    (retval, some (Pending.primary auth), [Ev.reqAuthCall src dst])

/-- `connect_event_cb(chan, err, src, dst, data)`: reject failed accepts;
register the channel with the device registry (on failure write the unplug
byte 0x15 first when on the control PSM, then `close(sk)`); on the interrupt
PSM invoke `authorize_device` and close the pair's channels if it returns a
negative status.  `sk` models `g_io_channel_unix_get_fd(chan)`. -/
def connect_event_cb (env : Env) (err : Int) (src dst : bdaddr_t)
    (psm sk : Int) : Option Pending × List Ev :=
  if err < 0 then (none, [Ev.errorLog])
  else
    let evs := [Ev.debugLog, Ev.setChannelCall src dst psm sk]
    if env.setChannelRet < 0 then
      (none, evs ++
        (if psm = L2CAP_PSM_HIDP_CTRL then [Ev.writeBytes sk [21]] else []) ++
        [Ev.closeFd sk])
    else if psm = L2CAP_PSM_HIDP_INTR then
      let r := authorize_device env src dst
      if r.1 < 0 then (r.2.1, evs ++ r.2.2 ++ [Ev.closeChannels src dst])
      else (r.2.1, evs ++ r.2.2)
    else (none, evs)

/-- Dispatch of a completed authorization: the event loop fires the registered
continuation with the result `contErr` (`none` = granted, `some derr` =
denial or transport error). -/
def fireContinuation (env : Env) (p : Pending)
    (contErr : Option DBusError) : List Ev :=
  match p with
  | Pending.primary auth => auth_callback auth contErr
  | Pending.fallback auth => authorization_callback env auth contErr

/-- The complete trace of one accepted connection: the events of
`connect_event_cb`, followed by the events of the registered continuation if
one is in flight.  This encodes the event-loop guarantee that an in-flight
continuation fires exactly once, with result `contErr`. -/
def runConnection (env : Env) (err : Int) (src dst : bdaddr_t) (psm sk : Int)
    (contErr : Option DBusError) : List Ev :=
  let r := connect_event_cb env err src dst psm sk
  r.2 ++ (match r.1 with
          | some p => fireContinuation env p contErr
          | none => [])

/-! ## Service lifecycle -/

/-- The module-level state: the two listener handles `ctrl_io` and `intr_io`
(`none` standing for NULL) and the shared D-Bus `connection` handle. -/
structure ServerState where
  ctrl_io : Option Nat
  intr_io : Option Nat
  connection : Option Nat
deriving DecidableEq, Repr

/-- The initial module state: all three static pointers are NULL. -/
def initState : ServerState := ⟨none, none, none⟩

/-- Environment oracle for `server_start`: the channels returned by the two
`bt_l2cap_listen` calls (`none` standing for NULL). -/
structure StartEnv where
  ctrlListen : Option Nat
  intrListen : Option Nat
deriving Repr

/-- `server_start(conn)`: listen on the control PSM (on NULL log and return
-1); mark the control channel close-on-unref; listen on the interrupt PSM (on
NULL log, unref the control channel and null `ctrl_io` — and then, the code
lacking a return here, fall through); mark the interrupt channel
close-on-unref; store the D-Bus handle; return 0. -/
def server_start (env : StartEnv) (s : ServerState) (conn : Nat) :
    Int × ServerState × List Ev :=
  let s1 : ServerState := { s with ctrl_io := env.ctrlListen }
  match env.ctrlListen with
  | none => (-1, s1, [Ev.errorLog])
  | some ch =>
      let evs1 := [Ev.setCloseOnUnref (some ch)]
      let s2 : ServerState := { s1 with intr_io := env.intrListen }
      match env.intrListen with
      | none =>
          let s3 : ServerState := { s2 with ctrl_io := none }
          let evs2 := evs1 ++ [Ev.errorLog, Ev.unref ch, Ev.setCloseOnUnref none]
          (0, { s3 with connection := some conn }, evs2)
      | some ih =>
          let evs2 := evs1 ++ [Ev.setCloseOnUnref (some ih)]
          (0, { s2 with connection := some conn }, evs2)

/-- `server_stop()`: unref the interrupt listener if present, then the control
listener if present.  The static pointers are left untouched. -/
def server_stop (s : ServerState) : ServerState × List Ev :=
  let evs := (match s.intr_io with
              | some h => [Ev.unref h]
              | none => []) ++
             (match s.ctrl_io with
              | some h => [Ev.unref h]
              | none => [])
  (s, evs)

/-! ## Trace observations -/

/-- The admission events (`input_device_connadd` calls) of a trace. -/
def connaddEvents (tr : List Ev) : List Ev :=
  tr.filter fun e => match e with
    | Ev.connadd _ _ => true
    | _ => false

/-- The `input_device_close_channels` events of a trace. -/
def closeChannelEvents (tr : List Ev) : List Ev :=
  tr.filter fun e => match e with
    | Ev.closeChannels _ _ => true
    | _ => false

/-- The closing events of a trace: `input_device_close_channels` and raw
`close(sk)` calls. -/
def closedEvents (tr : List Ev) : List Ev :=
  tr.filter fun e => match e with
    | Ev.closeChannels _ _ => true
    | Ev.closeFd _ => true
    | _ => false

/-- The cancellation events of a trace: primary-tier `service_cancel_auth`
calls and fallback-tier `CancelAuthorizationRequest` sends. -/
def cancelEvents (tr : List Ev) : List Ev :=
  tr.filter fun e => match e with
    | Ev.serviceCancelAuth _ => true
    | Ev.cancelSend _ => true
    | _ => false

theorem countEv_append (e : Ev) (xs ys : List Ev) :
    countEv e (xs ++ ys) = countEv e xs + countEv e ys := by
  induction xs with
  | nil => simp [countEv]
  | cons x xs ih => simp [countEv, ih]; ring

/-! ## Claims -/

/-- C4: for every authorization continuation (primary or fallback) for a pair:
a result with no error admits exactly that pair via `input_device_connadd`
and closes nothing; a result with any error closes the pair's channels via
`input_device_close_channels` and admits nothing. -/
theorem continuation_admission_vs_close (env : Env) (auth : authorization_data)
    (res : Option DBusError) :
    match res with
    | none =>
        connaddEvents (auth_callback auth none) =
            [Ev.connadd auth.src auth.dst] ∧
        closeChannelEvents (auth_callback auth none) = [] ∧
        connaddEvents (authorization_callback env auth none) =
            [Ev.connadd auth.src auth.dst] ∧
        closeChannelEvents (authorization_callback env auth none) = []
    | some d =>
        closeChannelEvents (auth_callback auth (some d)) =
            [Ev.closeChannels auth.src auth.dst] ∧
        connaddEvents (auth_callback auth (some d)) = [] ∧
        closeChannelEvents (authorization_callback env auth (some d)) =
            [Ev.closeChannels auth.src auth.dst] ∧
        connaddEvents (authorization_callback env auth (some d)) = [] := by
  cases res with
  | none =>
      simp [auth_callback, authorization_callback, connaddEvents,
        closeChannelEvents, List.filter]
  | some d =>
      by_cases h : d.name = DBUS_ERROR_NO_REPLY <;>
        by_cases hc : env.cancelMsgAlloc <;>
          simp [auth_callback, authorization_callback, cancel_authorization,
            connaddEvents, closeChannelEvents, List.filter, h, hc]

/-- C5: when device registration fails for an accepted connection, the
control PSM writes exactly one unplug byte 0x15 and then closes the socket,
while the interrupt PSM closes the socket without writing anything. -/
theorem registration_failure_unplug (env : Env) (src dst : bdaddr_t)
    (sk err : Int) (hreg : env.setChannelRet < 0) (hacc : 0 ≤ err) :
    (connect_event_cb env err src dst L2CAP_PSM_HIDP_CTRL sk).2 =
      [Ev.debugLog, Ev.setChannelCall src dst L2CAP_PSM_HIDP_CTRL sk,
       Ev.writeBytes sk [21], Ev.closeFd sk] ∧
    (connect_event_cb env err src dst L2CAP_PSM_HIDP_INTR sk).2 =
      [Ev.debugLog, Ev.setChannelCall src dst L2CAP_PSM_HIDP_INTR sk,
       Ev.closeFd sk] := by
  have herr : ¬ err < 0 := by omega
  constructor <;>
    simp [connect_event_cb, herr, hreg, L2CAP_PSM_HIDP_CTRL,
      L2CAP_PSM_HIDP_INTR]

theorem registration_failure_unplug_witness :
    ((⟨true, 0, true, true, -1⟩ : Env).setChannelRet < 0 ∧ (0:Int) ≤ 0) ∧
    (connect_event_cb ⟨true, 0, true, true, -1⟩ 0 1 2 L2CAP_PSM_HIDP_CTRL 5).2 =
      [Ev.debugLog, Ev.setChannelCall 1 2 L2CAP_PSM_HIDP_CTRL 5,
       Ev.writeBytes 5 [21], Ev.closeFd 5] ∧
    (connect_event_cb ⟨true, 0, true, true, -1⟩ 0 1 2 L2CAP_PSM_HIDP_INTR 5).2 =
      [Ev.debugLog, Ev.setChannelCall 1 2 L2CAP_PSM_HIDP_INTR 5,
       Ev.closeFd 5] :=
  ⟨⟨by decide, by decide⟩,
    registration_failure_unplug ⟨true, 0, true, true, -1⟩ 1 2 5 0
      (by decide) (by decide)⟩

/-- C9: `authorize_device` surfaces exactly two error kinds: `-ENOMEM` when
the fallback request message cannot be allocated and `-EACCES` when the
fallback call cannot be sent; in every other case it returns a non-negative
status. -/
theorem authorize_device_error_taxonomy (env : Env) (src dst : bdaddr_t) :
    ((authorize_device env src dst).1 = -ENOMEM ∧
        env.reqAuthRet < 0 ∧ env.fallbackMsgAlloc = false) ∨
    ((authorize_device env src dst).1 = -EACCES ∧
        env.reqAuthRet < 0 ∧ env.fallbackMsgAlloc = true ∧
        env.fallbackSendOk = false) ∨
    (0 ≤ (authorize_device env src dst).1) := by
  by_cases hp : env.reqAuthRet < 0
  · by_cases ha : env.fallbackMsgAlloc
    · by_cases hs : env.fallbackSendOk
      · right; right
        simp [authorize_device, fallbackPath, hp, ha, hs]
      · right; left
        simp only [Bool.not_eq_true] at hs
        simp [authorize_device, fallbackPath, hp, ha, hs]
    · left
      simp only [Bool.not_eq_true] at ha
      simp [authorize_device, fallbackPath, hp, ha]
  · right; right
    simp [authorize_device, hp]
    omega

theorem connaddEvents_append (xs ys : List Ev) :
    connaddEvents (xs ++ ys) = connaddEvents xs ++ connaddEvents ys := by
  simp [connaddEvents, List.filter_append]

theorem closedEvents_append (xs ys : List Ev) :
    closedEvents (xs ++ ys) = closedEvents xs ++ closedEvents ys := by
  simp [closedEvents, List.filter_append]

theorem closeChannelEvents_append (xs ys : List Ev) :
    closeChannelEvents (xs ++ ys) =
      closeChannelEvents xs ++ closeChannelEvents ys := by
  simp [closeChannelEvents, List.filter_append]

theorem cancelEvents_append (xs ys : List Ev) :
    cancelEvents (xs ++ ys) = cancelEvents xs ++ cancelEvents ys := by
  simp [cancelEvents, List.filter_append]

/-- C3: on either tier, a continuation that fires with a `no reply` error
performs exactly one cancellation for the destination of the pair
(`service_cancel_auth` on the primary tier, the `CancelAuthorizationRequest`
send on the fallback tier); any other error, and the success case, perform
no cancellation.  The fallback-tier send presumes the cancellation message
can be allocated (`halloc`); cancellation is best-effort. -/
theorem no_reply_single_cancellation (env : Env) (auth : authorization_data)
    (res : Option DBusError) (halloc : env.cancelMsgAlloc = true) :
    match res with
    | none =>
        cancelEvents (auth_callback auth none) = [] ∧
        cancelEvents (authorization_callback env auth none) = []
    | some d =>
        (cancelEvents (auth_callback auth (some d)) =
          if d.name = DBUS_ERROR_NO_REPLY then [Ev.serviceCancelAuth auth.dst]
          else []) ∧
        (cancelEvents (authorization_callback env auth (some d)) =
          if d.name = DBUS_ERROR_NO_REPLY then [Ev.cancelSend (ba2str auth.dst)]
          else []) := by
  cases res with
  | none =>
      simp [auth_callback, authorization_callback, cancelEvents, List.filter]
  | some d =>
      by_cases h : d.name = DBUS_ERROR_NO_REPLY <;>
        simp [auth_callback, authorization_callback, cancel_authorization,
          cancelEvents, List.filter, h, halloc]

theorem no_reply_single_cancellation_witness :
    ((⟨true, 0, true, true, 0⟩ : Env).cancelMsgAlloc = true) ∧
    ((cancelEvents
        (auth_callback ⟨1, 2⟩ (some ⟨DBUS_ERROR_NO_REPLY, "timeout"⟩)) =
      if (⟨DBUS_ERROR_NO_REPLY, "timeout"⟩ : DBusError).name =
          DBUS_ERROR_NO_REPLY then
        [Ev.serviceCancelAuth (2 : bdaddr_t)]
      else []) ∧
    (cancelEvents
        (authorization_callback ⟨true, 0, true, true, 0⟩ ⟨1, 2⟩
          (some ⟨DBUS_ERROR_NO_REPLY, "timeout"⟩)) =
      if (⟨DBUS_ERROR_NO_REPLY, "timeout"⟩ : DBusError).name =
          DBUS_ERROR_NO_REPLY then
        [Ev.cancelSend (ba2str (2 : bdaddr_t))]
      else [])) :=
  ⟨rfl,
    no_reply_single_cancellation ⟨true, 0, true, true, 0⟩ ⟨1, 2⟩
      (some ⟨DBUS_ERROR_NO_REPLY, "timeout"⟩) rfl⟩

/-- C1: for every accepted interrupt-PSM connection, exactly one of the two
outcomes occurs once the in-flight continuation (if any) has fired: the pair
is admitted (`input_device_connadd`), or it is torn down (either
`input_device_close_channels` for the pair or `close(sk)` of the raw socket
when registration failed) — never both, never neither. -/
theorem interrupt_exactly_one_outcome (env : Env) (src dst : bdaddr_t)
    (err sk : Int) (contErr : Option DBusError) (hacc : 0 ≤ err) :
    (connaddEvents
        (runConnection env err src dst L2CAP_PSM_HIDP_INTR sk contErr) =
          [Ev.connadd src dst] ∧
      closedEvents
        (runConnection env err src dst L2CAP_PSM_HIDP_INTR sk contErr) = []) ∨
    (connaddEvents
        (runConnection env err src dst L2CAP_PSM_HIDP_INTR sk contErr) = [] ∧
      (closedEvents
          (runConnection env err src dst L2CAP_PSM_HIDP_INTR sk contErr) =
            [Ev.closeChannels src dst] ∨
        closedEvents
          (runConnection env err src dst L2CAP_PSM_HIDP_INTR sk contErr) =
            [Ev.closeFd sk])) := by
  have herr : ¬ err < 0 := by omega
  by_cases hreg : env.setChannelRet < 0
  · right
    simp [runConnection, connect_event_cb, herr, hreg, L2CAP_PSM_HIDP_INTR,
      L2CAP_PSM_HIDP_CTRL, connaddEvents, closedEvents, List.filter]
  · by_cases hp : env.reqAuthRet < 0
    · by_cases ha : env.fallbackMsgAlloc
      · by_cases hs : env.fallbackSendOk
        · -- fallback sent; continuation fires with contErr
          cases contErr with
          | none =>
              left
              simp [runConnection, connect_event_cb, authorize_device,
                fallbackPath, fireContinuation, authorization_callback, herr,
                hreg, hp, ha, hs, L2CAP_PSM_HIDP_INTR, connaddEvents,
                closedEvents, List.filter]
          | some d =>
              right
              by_cases hn : d.name = DBUS_ERROR_NO_REPLY <;>
                by_cases hc : env.cancelMsgAlloc <;>
                  simp [runConnection, connect_event_cb, authorize_device,
                    fallbackPath, fireContinuation, authorization_callback,
                    cancel_authorization, herr, hreg, hp, ha, hs, hn, hc,
                    L2CAP_PSM_HIDP_INTR, connaddEvents, closedEvents,
                    List.filter]
        · -- fallback send failed: caller closes the channels
          right
          simp only [Bool.not_eq_true] at hs
          simp [runConnection, connect_event_cb, authorize_device,
            fallbackPath, herr, hreg, hp, ha, hs, EACCES,
            L2CAP_PSM_HIDP_INTR, connaddEvents, closedEvents, List.filter]
      · -- fallback message allocation failed: caller closes the channels
        right
        simp only [Bool.not_eq_true] at ha
        simp [runConnection, connect_event_cb, authorize_device,
          fallbackPath, herr, hreg, hp, ha, ENOMEM,
          L2CAP_PSM_HIDP_INTR, connaddEvents, closedEvents, List.filter]
    · -- primary dispatched; continuation fires with contErr
      cases contErr with
      | none =>
          left
          simp [runConnection, connect_event_cb, authorize_device,
            fireContinuation, auth_callback, herr, hreg, hp,
            L2CAP_PSM_HIDP_INTR, connaddEvents, closedEvents, List.filter]
      | some d =>
          right
          by_cases hn : d.name = DBUS_ERROR_NO_REPLY <;>
            simp [runConnection, connect_event_cb, authorize_device,
              fireContinuation, auth_callback, herr, hreg, hp, hn,
              L2CAP_PSM_HIDP_INTR, connaddEvents, closedEvents, List.filter]

theorem interrupt_exactly_one_outcome_witness :
    ((0 : Int) ≤ 0) ∧
    ((connaddEvents
        (runConnection ⟨true, 0, true, true, 0⟩ 0 1 2 L2CAP_PSM_HIDP_INTR 5
          none) = [Ev.connadd 1 2] ∧
      closedEvents
        (runConnection ⟨true, 0, true, true, 0⟩ 0 1 2 L2CAP_PSM_HIDP_INTR 5
          none) = []) ∨
    (connaddEvents
        (runConnection ⟨true, 0, true, true, 0⟩ 0 1 2 L2CAP_PSM_HIDP_INTR 5
          none) = [] ∧
      (closedEvents
          (runConnection ⟨true, 0, true, true, 0⟩ 0 1 2 L2CAP_PSM_HIDP_INTR 5
            none) = [Ev.closeChannels 1 2] ∨
        closedEvents
          (runConnection ⟨true, 0, true, true, 0⟩ 0 1 2 L2CAP_PSM_HIDP_INTR 5
            none) = [Ev.closeFd 5]))) :=
  ⟨by decide,
    interrupt_exactly_one_outcome ⟨true, 0, true, true, 0⟩ 1 2 0 5 none
      (by decide)⟩

/-- C2: when the primary dispatch (`service_req_auth`) returns a negative
code, `authorize_device` always proceeds to the fallback path (its result,
registered continuation and trace are those of the `fallback:` label, after
the recorded `service_req_auth` call); and when the fallback message is
built but cannot be sent, it returns `-EACCES` with no continuation in
flight, and the caller `connect_event_cb` closes the pair's channels. -/
theorem primary_failure_uses_fallback (env : Env) (src dst : bdaddr_t)
    (sk : Int) (contErr : Option DBusError) (hprim : env.reqAuthRet < 0)
    (hreg : 0 ≤ env.setChannelRet) :
    ((authorize_device env src dst).1 = (fallbackPath env dst ⟨src, dst⟩).1 ∧
      (authorize_device env src dst).2.1 =
        (fallbackPath env dst ⟨src, dst⟩).2.1 ∧
      (authorize_device env src dst).2.2 =
        Ev.reqAuthCall src dst :: (fallbackPath env dst ⟨src, dst⟩).2.2) ∧
    (env.fallbackMsgAlloc = true → env.fallbackSendOk = false →
      (authorize_device env src dst).1 = -EACCES ∧
      (authorize_device env src dst).2.1 = none ∧
      closeChannelEvents
          (runConnection env 0 src dst L2CAP_PSM_HIDP_INTR sk contErr) =
        [Ev.closeChannels src dst]) := by
  have hreg' : ¬ env.setChannelRet < 0 := by omega
  constructor
  · simp [authorize_device, hprim]
  · intro ha hs
    refine ⟨?_, ?_, ?_⟩
    · simp [authorize_device, fallbackPath, hprim, ha, hs]
    · simp [authorize_device, fallbackPath, hprim, ha, hs]
    · simp [runConnection, connect_event_cb, authorize_device, fallbackPath,
        hprim, ha, hs, hreg', EACCES, L2CAP_PSM_HIDP_INTR,
        closeChannelEvents, List.filter]

theorem primary_failure_uses_fallback_witness :
    ((⟨true, -1, true, false, 0⟩ : Env).reqAuthRet < 0 ∧
      (0 : Int) ≤ (⟨true, -1, true, false, 0⟩ : Env).setChannelRet) ∧
    ((authorize_device ⟨true, -1, true, false, 0⟩ 1 2).1 =
        (fallbackPath ⟨true, -1, true, false, 0⟩ 2 ⟨1, 2⟩).1 ∧
      (authorize_device ⟨true, -1, true, false, 0⟩ 1 2).2.1 =
        (fallbackPath ⟨true, -1, true, false, 0⟩ 2 ⟨1, 2⟩).2.1 ∧
      (authorize_device ⟨true, -1, true, false, 0⟩ 1 2).2.2 =
        Ev.reqAuthCall 1 2 ::
          (fallbackPath ⟨true, -1, true, false, 0⟩ 2 ⟨1, 2⟩).2.2) ∧
    ((authorize_device ⟨true, -1, true, false, 0⟩ 1 2).1 = -EACCES ∧
      (authorize_device ⟨true, -1, true, false, 0⟩ 1 2).2.1 = none ∧
      closeChannelEvents
          (runConnection ⟨true, -1, true, false, 0⟩ 0 1 2
            L2CAP_PSM_HIDP_INTR 5 none) = [Ev.closeChannels 1 2]) :=
  ⟨⟨by decide, by decide⟩,
    (primary_failure_uses_fallback ⟨true, -1, true, false, 0⟩ 1 2 5 none
        (by decide) (by decide)).1,
    (primary_failure_uses_fallback ⟨true, -1, true, false, 0⟩ 1 2 5 none
        (by decide) (by decide)).2 rfl rfl⟩

/-- C6 (evaluation at the failing input): when the control listener opens but
the interrupt listener fails to open, `server_start` — whose error branch
lacks a return — falls through: it returns 0 (success) and stores the D-Bus
handle, instead of reporting failure and leaving the service not started. -/
theorem server_start_intr_failure_falls_through :
    (server_start ⟨some 1, none⟩ initState 7).1 = 0 ∧
    (server_start ⟨some 1, none⟩ initState 7).2.1.connection = some 7 ∧
    (server_start ⟨some 1, none⟩ initState 7).2.1.ctrl_io = none ∧
    (server_start ⟨some 1, none⟩ initState 7).2.1.intr_io = none :=
  ⟨rfl, rfl, rfl, rfl⟩

/-- C10 (evaluation at the failing input): in the run where the interrupt
listener fails to open, `server_start` still applies
`g_io_channel_set_close_on_unref` to the NULL interrupt channel. -/
theorem server_start_null_channel_op :
    Ev.setCloseOnUnref none ∈ (server_start ⟨some 1, none⟩ initState 7).2.2 := by
  simp [server_start, initState]

/-- C7 counterexample: after a successful start and a stop, the handles are
not nulled (`intr_io` is still set), and a second stop releases both handles
again instead of being a no-op. -/
theorem server_stop_not_idempotent :
    (server_stop (server_start ⟨some 1, some 2⟩ initState 7).2.1).2 =
      [Ev.unref 2, Ev.unref 1] ∧
    (server_stop (server_start ⟨some 1, some 2⟩ initState 7).2.1).1.intr_io =
      some 2 ∧
    (server_stop
        (server_stop (server_start ⟨some 1, some 2⟩ initState 7).2.1).1).2 =
      [Ev.unref 2, Ev.unref 1] :=
  ⟨rfl, rfl, rfl⟩

/-- C7 amended: `server_stop` releases both listener handles when present, in
reverse-acquisition order (Interrupt before Control), and a stop with both
handles absent — in particular one without any prior successful start — is a
no-op; but it leaves the module state unchanged (the handles are not
nulled), so a repeated stop releases the same handles again. -/
theorem server_stop_behaviour (s : ServerState) :
    ((server_stop s).1 = s) ∧
    (∀ hi hc, s.intr_io = some hi → s.ctrl_io = some hc →
      (server_stop s).2 = [Ev.unref hi, Ev.unref hc]) ∧
    (s.intr_io = none → s.ctrl_io = none → (server_stop s).2 = []) ∧
    ((server_stop ((server_stop s).1)).2 = (server_stop s).2) := by
  refine ⟨rfl, ?_, ?_, rfl⟩
  · intro hi hc h1 h2
    simp [server_stop, h1, h2]
  · intro h1 h2
    simp [server_stop, h1, h2]

theorem server_stop_behaviour_witness :
    (initState.intr_io = none ∧ initState.ctrl_io = none) ∧
    ((server_stop initState).1 = initState) ∧
    ((server_stop initState).2 = []) :=
  ⟨⟨rfl, rfl⟩, (server_stop_behaviour initState).1,
    (server_stop_behaviour initState).2.2.1 rfl rfl⟩

/-- C8 counterexample: after a successful start storing handle 7 and a
subsequent stop, the module-level D-Bus connection is still set —
`server_stop` never clears it. -/
theorem connection_not_cleared_by_stop :
    (server_stop (server_start ⟨some 1, some 2⟩ initState 7).2.1).1.connection
      = some 7 :=
  rfl

/-- C8 amended: `server_start` stores the RPC handle whenever the control
listener opens — including the interrupt-failure path — and leaves it
untouched when the control listener fails; `server_stop` never modifies it,
so after a stop the handle keeps whatever value the last start stored. -/
theorem connection_lifecycle (env : StartEnv) (s : ServerState) (conn : Nat) :
    (env.ctrlListen ≠ none →
      (server_start env s conn).2.1.connection = some conn) ∧
    (env.ctrlListen = none →
      (server_start env s conn).2.1.connection = s.connection) ∧
    (server_stop s).1.connection = s.connection := by
  refine ⟨?_, ?_, rfl⟩
  · intro h
    cases henv : env.ctrlListen with
    | none => exact absurd henv h
    | some ch =>
        cases henv2 : env.intrListen <;> simp [server_start, henv, henv2]
  · intro h
    simp [server_start, h]

theorem connection_lifecycle_witness :
    ((⟨some 1, some 2⟩ : StartEnv).ctrlListen ≠ none) ∧
    ((server_start ⟨some 1, some 2⟩ initState 7).2.1.connection = some 7) ∧
    ((server_stop initState).1.connection = initState.connection) :=
  ⟨by decide,
    (connection_lifecycle ⟨some 1, some 2⟩ initState 7).1 (by decide),
    (connection_lifecycle ⟨some 1, some 2⟩ initState 7).2.2⟩
